import Mathlib

/-
Verification of the TamperGuide guided-tour library (tamperGuide.js).
The driver is shallowly embedded: the step-transition controller becomes a
pure state machine over a DriverState record, user hooks become abstract
behaviors (a return value or a thrown exception), the deferred popover
render (setTimeout) becomes an explicit settle transition, and the
geometric helpers (overlay cutout, popover side selection, arrow CSS,
z-index constants) become functions over the rationals and integers.
-/

namespace TamperGuide

/-! ## Hook model

A user-supplied hook either returns a value or throws.  The driver only
distinguishes the exact value false from everything else, so return values
are classified into undefined, false, true and other. -/

inductive HookRet where
  | retUndefined
  | retFalse
  | retTrue
  | retOther
deriving DecidableEq, Repr

inductive HookBehavior where
  | ret (r : HookRet)
  | throws
deriving DecidableEq, Repr

/-- safeHook from tamperGuide.js: an absent hook yields undefined; a hook
that throws is caught and logged and yields undefined; otherwise the hook
return value is passed through. -/
def safeHook : Option HookBehavior → HookRet
  | none => .retUndefined
  | some (.ret r) => r
  | some .throws => .retUndefined

/-! ## Steps and configuration

Only the fields the verified claims depend on are modelled.  A popover
carries its optional navigation hooks; a step carries an optional popover
and whether its element resolves to a real DOM node. -/

structure PopoverSpec where
  onNextClick : Option HookBehavior := none
  onPrevClick : Option HookBehavior := none
  onCloseClick : Option HookBehavior := none
deriving DecidableEq, Repr

structure Step where
  hasElement : Bool := false
  popover : Option PopoverSpec := none
deriving DecidableEq, Repr

structure Config where
  steps : List Step := []
  animate : Bool := true
  onNextClick : Option HookBehavior := none
  onPrevClick : Option HookBehavior := none
  onCloseClick : Option HookBehavior := none
  onDestroyStarted : Option HookBehavior := none
deriving DecidableEq, Repr

/-! ## Driver state

TourState mirrors the createStateManager initial state; the extra fields of
DriverState mirror the module-local variables of the overlay, popover and
events managers, plus the pending setTimeout scheduled by highlightStep.
Steps are referenced by index; activeElement records that an anchor (real
element or dummy) exists. -/

structure TourState where
  isInitialized : Bool := false
  activeIndex : Option Nat := none
  activeStep : Option Nat := none
  previousStep : Option Nat := none
  activeElement : Bool := false
  previousElement : Bool := false
  transitionInProgress : Bool := false
  focusedBeforeActivation : Bool := false
deriving DecidableEq, Repr

structure DriverState where
  tour : TourState := {}
  overlayEl : Bool := false
  popoverEl : Bool := false
  popoverVisible : Bool := false
  listenersBound : Bool := false
  pendingSettle : Bool := false
deriving DecidableEq, Repr

inductive TGError where
  | NO_STEPS
  | INVALID_STEP_INDEX
deriving DecidableEq, Repr

/-- init: idempotent; injects styles, shows the overlay, records the focused
element, binds the keyboard, resize and click listeners, then marks the
instance initialized. -/
def init (s : DriverState) : DriverState :=
  if s.tour.isInitialized then s
  else
    { s with
      overlayEl := true
      listenersBound := true
      tour := { s.tour with isInitialized := true, focusedBeforeActivation := true } }

/-- Shared teardown tail of performDestroy: removes the popover, dummy and
overlay nodes, detaches all listeners, clears the emitter and resets the
TourState.  The pending timeout is not cancelled; its callback checks
isInitialized when it fires, so only the flag survives here. -/
def destroySequence (s : DriverState) : DriverState :=
  { tour := {}
    overlayEl := false
    popoverEl := false
    popoverVisible := false
    listenersBound := false
    pendingSettle := s.pendingSettle }

/-- performDestroy: when invoked with the user-initiated flag, the
onDestroyStarted config hook may cancel the teardown by returning exactly
false; otherwise the full destroy sequence runs (the onDeselected and
onDestroyed hooks and the focus restoration have no effect on this state). -/
def performDestroy (cfg : Config) (withDestroyStartedHook : Bool) (s : DriverState) : DriverState :=
  if withDestroyStartedHook then
    match cfg.onDestroyStarted with
    | some hb =>
      if safeHook (some hb) = HookRet.retFalse then s
      else destroySequence s
    | none => destroySequence s
  else destroySequence s

/-- highlightStep: validates that steps exist and the index is in range
(throwing otherwise), no-ops while a transition is in progress, and
otherwise fires the outgoing hooks, records the previous step and element,
activates the new step, hides the popover and schedules the deferred render. -/
def highlightStep (cfg : Config) (stepIndex : Int) (s : DriverState) :
    Except TGError DriverState :=
  if cfg.steps.length = 0 then .error .NO_STEPS
  else if stepIndex < 0 ∨ (cfg.steps.length : Int) ≤ stepIndex then
    .error .INVALID_STEP_INDEX
  else if s.tour.transitionInProgress then .ok s
  else
    .ok { s with
      popoverVisible := false
      pendingSettle := true
      tour := { s.tour with
        transitionInProgress := true
        previousStep := s.tour.activeStep
        previousElement := s.tour.activeElement
        activeStep := some stepIndex.toNat
        activeIndex := some stepIndex.toNat
        activeElement := true } }

/-- Reports whether the step at the given index carries a popover. -/
def hasPopoverAt (cfg : Config) (i : Option Nat) : Bool :=
  match i with
  | some j =>
    match cfg.steps.get? j with
    | some st => st.popover.isSome
    | none => false
  | none => false

/-- settle: the setTimeout callback scheduled by highlightStep fires.  The
callback first checks isInitialized; then it renders the popover when the
step has one, fires onHighlighted, and clears the transition flag. -/
def settle (cfg : Config) (s : DriverState) : DriverState :=
  if s.pendingSettle = false then s
  else if s.tour.isInitialized = false then { s with pendingSettle := false }
  else
    { s with
      pendingSettle := false
      popoverEl := s.popoverEl || hasPopoverAt cfg s.tour.activeStep
      popoverVisible := s.popoverVisible || hasPopoverAt cfg s.tour.activeStep
      tour := { s.tour with transitionInProgress := false } }

/-- Looks up the step object referenced by the active-step field. -/
def stepAt (cfg : Config) (i : Option Nat) : Option Step :=
  match i with
  | some j => cfg.steps.get? j
  | none => none

/-- Effective onNextClick hook: the step-level popover hook when present,
otherwise the global config hook, as in handleNext. -/
def effectiveNextHook (cfg : Config) (activeStep : Option Step) : Option HookBehavior :=
  match activeStep with
  | some st =>
    match st.popover with
    | some p =>
      match p.onNextClick with
      | some hb => some hb
      | none => cfg.onNextClick
    | none => cfg.onNextClick
  | none => cfg.onNextClick

/-- Effective onPrevClick hook, as in handlePrev. -/
def effectivePrevHook (cfg : Config) (activeStep : Option Step) : Option HookBehavior :=
  match activeStep with
  | some st =>
    match st.popover with
    | some p =>
      match p.onPrevClick with
      | some hb => some hb
      | none => cfg.onPrevClick
    | none => cfg.onPrevClick
  | none => cfg.onPrevClick

/-- Effective onCloseClick hook, as in handleClose. -/
def effectiveCloseHook (cfg : Config) (activeStep : Option Step) : Option HookBehavior :=
  match activeStep with
  | some st =>
    match st.popover with
    | some p =>
      match p.onCloseClick with
      | some hb => some hb
      | none => cfg.onCloseClick
    | none => cfg.onCloseClick
  | none => cfg.onCloseClick

/-- Advancing tail of handleNext: with a defined current index below the
last one, highlight the next step; otherwise the end of the tour was
reached and the driver destroys itself without the user-initiated hook. -/
def handleNextAdvance (cfg : Config) (s : DriverState) : Except TGError DriverState :=
  match s.tour.activeIndex with
  | some i =>
    if (i : Int) < (cfg.steps.length : Int) - 1 then
      highlightStep cfg ((i : Int) + 1) s
    else .ok (performDestroy cfg false s)
  | none => .ok (performDestroy cfg false s)

/-- handleNext: guarded by the transition flag; the effective onNextClick
hook may cancel by returning exactly false; otherwise advance. -/
def handleNext (cfg : Config) (s : DriverState) : Except TGError DriverState :=
  if s.tour.transitionInProgress then .ok s
  else
    match effectiveNextHook cfg (stepAt cfg s.tour.activeStep) with
    | some hb =>
      if safeHook (some hb) = HookRet.retFalse then .ok s
      else handleNextAdvance cfg s
    | none => handleNextAdvance cfg s

/-- Retreating tail of handlePrev: stepping before index zero is a no-op. -/
def handlePrevRetreat (cfg : Config) (s : DriverState) : Except TGError DriverState :=
  match s.tour.activeIndex with
  | some i =>
    if 0 < i then highlightStep cfg ((i : Int) - 1) s
    else .ok s
  | none => .ok s

/-- handlePrev: guarded by the transition flag; the effective onPrevClick
hook may cancel; otherwise retreat. -/
def handlePrev (cfg : Config) (s : DriverState) : Except TGError DriverState :=
  if s.tour.transitionInProgress then .ok s
  else
    match effectivePrevHook cfg (stepAt cfg s.tour.activeStep) with
    | some hb =>
      if safeHook (some hb) = HookRet.retFalse then .ok s
      else handlePrevRetreat cfg s
    | none => handlePrevRetreat cfg s

/-- handleClose: guarded by the transition flag; the effective onCloseClick
hook may cancel; otherwise a user-initiated destroy runs. -/
def handleClose (cfg : Config) (s : DriverState) : DriverState :=
  if s.tour.transitionInProgress then s
  else
    match effectiveCloseHook cfg (stepAt cfg s.tour.activeStep) with
    | some hb =>
      if safeHook (some hb) = HookRet.retFalse then s
      else performDestroy cfg true s
    | none => performDestroy cfg true s

/-! ## Public API surface -/

def isActive (s : DriverState) : Bool :=
  s.tour.isInitialized

def getActiveIndex (s : DriverState) : Option Nat :=
  s.tour.activeIndex

def isFirstStep (s : DriverState) : Bool :=
  s.tour.activeIndex = some 0

def isLastStep (cfg : Config) (s : DriverState) : Bool :=
  match s.tour.activeIndex with
  | some i => decide ((i : Int) = (cfg.steps.length : Int) - 1)
  | none => false

def moveNext (cfg : Config) (s : DriverState) : Except TGError DriverState :=
  handleNext cfg s

def movePrevious (cfg : Config) (s : DriverState) : Except TGError DriverState :=
  handlePrev cfg s

/-- moveTo: initializes the driver when needed, then highlights the index. -/
def moveTo (cfg : Config) (stepIndex : Int) (s : DriverState) :
    Except TGError DriverState :=
  highlightStep cfg stepIndex (if s.tour.isInitialized then s else init s)

/-- drive: the stepIndex or-zero defaulting of the source is the identity on
integers, so drive initializes and highlights the given index. -/
def drive (cfg : Config) (stepIndex : Int) (s : DriverState) :
    Except TGError DriverState :=
  highlightStep cfg stepIndex (init s)

def destroy (cfg : Config) (s : DriverState) : DriverState :=
  performDestroy cfg false s

/-- Initial driver instance state, before any public call. -/
def initialDriver : DriverState := {}

/-- Bounded tour execution of the spec scenario: drive index zero, then let
the deferred render settle, then repeat settled moveNext calls.  Each
navigation call thus starts only after the prior transition settled. -/
def tourRun (cfg : Config) : Nat → Except TGError DriverState
  | 0 => (drive cfg 0 initialDriver).map (settle cfg)
  | k + 1 => (tourRun cfg k).bind (fun s => (moveNext cfg s).map (settle cfg))

/-! ## Stacking layers

The source has no runtime z-index resolver: the layer values are fixed in
the style sheet that injectStyles inserts, .tg-overlay at z-index
2147483640 and .tg-popover at z-index 2147483642. -/

def overlayZ : ℤ := 2147483640

def popoverZ : ℤ := 2147483642

/-- Stacking layers viewed as a function of the highest pre-existing
z-index on the page: the injected CSS constants do not depend on it. -/
def stackingLayers (_maxZ : ℤ) : ℤ × ℤ :=
  (overlayZ, popoverZ)

/-! ## Scrim cutout geometry (refreshSVG) -/

structure Rect where
  x : ℚ
  y : ℚ
  width : ℚ
  height : ℚ
  radius : ℚ
deriving DecidableEq, Repr

/-- Cutout rectangle actually drawn by refreshSVG: the x, y, width and
height of the given rect are used verbatim in the inner path, and the
corner radius is reduced to the minimum of the configured radius (or-zero
defaulted in the source), half the width and half the height. -/
def drawnCutout (rect : Rect) : Rect :=
  { rect with radius := min (min rect.radius (rect.width / 2)) (rect.height / 2) }

/-- Viewport-clamping property the specification asserts of the drawn
cutout. -/
def clampedToViewport (vw vh : ℚ) (c : Rect) : Prop :=
  0 ≤ c.x ∧ 0 ≤ c.y ∧ c.x + c.width ≤ vw ∧ c.y + c.height ≤ vh ∧
    c.radius ≤ min c.width c.height / 2

/-! ## Popover side selection (calculateBestSide) -/

inductive Side where
  | top
  | right
  | bottom
  | left
deriving DecidableEq, Repr

/-- Target bounding rectangle fields read by calculateBestSide. -/
structure TargetRect where
  top : ℚ
  bottom : ℚ
  left : ℚ
  right : ℚ
deriving DecidableEq, Repr

/-- Popover panel bounding-box fields read by calculateBestSide. -/
structure PanelRect where
  width : ℚ
  height : ℚ
deriving DecidableEq, Repr

/-- Available space toward each side of the target within the viewport, as
computed in the spaces array of calculateBestSide. -/
def sideSpace (vw vh : ℚ) (t : TargetRect) : Side → ℚ
  | .bottom => vh - t.bottom
  | .top => t.top
  | .right => vw - t.right
  | .left => t.left

/-- Panel extent required on a side: height for top and bottom, width for
left and right. -/
def sideNeeded (p : PanelRect) : Side → ℚ
  | .bottom => p.height
  | .top => p.height
  | .right => p.width
  | .left => p.width

/-- Qualification test of calculateBestSide: the available space must cover
the needed panel extent plus the fixed 20 pixel buffer. -/
def sideQualifies (vw vh : ℚ) (t : TargetRect) (p : PanelRect) (side : Side) : Prop :=
  sideNeeded p side + 20 ≤ sideSpace vw vh t side

/-- calculateBestSide: scan the spaces array in the order bottom, top,
right, left and return the first qualifying side.  When none qualifies the
source stable-sorts the array by descending space and takes the head, which
is the earliest side in the original order attaining the maximum space. -/
def calculateBestSide (vw vh : ℚ) (t : TargetRect) (p : PanelRect) : Side :=
  let sb := vh - t.bottom
  let st := t.top
  let sr := vw - t.right
  let sl := t.left
  if p.height + 20 ≤ sb then .bottom
  else if p.height + 20 ≤ st then .top
  else if p.width + 20 ≤ sr then .right
  else if p.width + 20 ≤ sl then .left
  else
    let m := max (max sb st) (max sr sl)
    if sb = m then .bottom
    else if st = m then .top
    else if sr = m then .right
    else .left

/-! ## Popover arrow placement

The source positions the arrow purely through CSS: the element
.tg-popover-arrow is a 12 by 12 pixel square, and the side classes place it
at 50 percent of the panel with a minus 6 pixel margin on the cross axis.
setArrowClass only selects which of those classes applies. -/

def arrowSize : ℚ := 12

/-- Cross-axis offset of the arrow inside the panel, as produced by the
injected CSS rules: always the panel midpoint minus half the arrow size,
with no dependence on the target rectangle. -/
def arrowCrossOffset (panelExtent : ℚ) : ℚ :=
  panelExtent / 2 - 6

/-- Arrow offset formula asserted by the specification: track the target
midpoint relative to the clamped panel origin, clamped into the panel. -/
def claimedArrowOffset (targetMid panelOrigin panelExtent minMargin : ℚ) : ℚ :=
  max minMargin
    (min (targetMid - panelOrigin - arrowSize / 2) (panelExtent - minMargin - arrowSize))

/-! ## Animation-frame deferral of the cutout refresh -/

/-- Explicit requestAnimationFrame nesting around a final action. -/
inductive Deferred (α : Type) where
  | now (a : α)
  | afterFrame (rest : Deferred α)
deriving DecidableEq, Repr

/-- Number of animation-frame boundaries before the action runs. -/
def Deferred.frameCount {α : Type} : Deferred α → Nat
  | .now _ => 0
  | .afterFrame rest => rest.frameCount + 1

inductive HighlightAction where
  | refreshCutout
deriving DecidableEq, Repr

/-- Deferral structure of the cutout recomputation in the highlight
function of createHighlightManager: a single requestAnimationFrame wrapping
the refresh call. -/
def highlightRefreshSchedule : Deferred HighlightAction :=
  .afterFrame (.now .refreshCutout)

/-! ## Claim C1: stacking layers -/

/-- C1 counterexample: the specification scenario discovers a positive
maximum z-index of 12 and demands overlayZ equal 13 and popoverZ equal 15,
but the layers injected by the source are the fixed CSS constants, so the
asserted resolver output does not hold. -/
theorem c1_counterexample : stackingLayers 12 ≠ (12 + 1, 12 + 3) := by
  decide

/-- C1 amended: the stacking layers are the fixed constants 2147483640 and
2147483642 from the injected style sheet, independent of any discovered
z-index; the overlay layer sits strictly below the popover layer, and both
sit strictly above every pre-existing z-index up to 2147483639, in
particular above the 12 of the specification scenario. -/
theorem c1_fixed_layers (m : ℤ) (hm : m ≤ 2147483639) :
    overlayZ < popoverZ ∧ stackingLayers m = (overlayZ, popoverZ) ∧
      m < overlayZ ∧ m < popoverZ := by
  unfold overlayZ popoverZ stackingLayers
  exact ⟨by norm_num, rfl, by omega, by omega⟩

/-- C1 witness: the amended statement at the discovered maximum 12. -/
theorem c1_fixed_layers_witness :
    (12 : ℤ) ≤ 2147483639 ∧
      (overlayZ < popoverZ ∧ stackingLayers 12 = (overlayZ, popoverZ) ∧
        (12 : ℤ) < overlayZ ∧ (12 : ℤ) < popoverZ) :=
  ⟨by norm_num, c1_fixed_layers 12 (by norm_num)⟩

/-! ## Claim C4: scrim cutout clamping -/

/-- C4 counterexample: a rectangle reaching past the left viewport edge is
drawn by refreshSVG exactly as given, so the drawn cutout violates the
asserted viewport clamping. -/
theorem c4_counterexample :
    ¬ clampedToViewport 1024 768 (drawnCutout ⟨-5, 10, 50, 40, 5⟩) := by
  norm_num [clampedToViewport, drawnCutout]

/-- C4 amended: refreshSVG performs no viewport clamping at all; the drawn
cutout keeps the given x, y, width and height verbatim, and only the corner
radius is clamped, to at most the configured radius, half the width and
half the height. -/
theorem c4_cutout_radius_only (rect : Rect) :
    (drawnCutout rect).x = rect.x ∧ (drawnCutout rect).y = rect.y ∧
      (drawnCutout rect).width = rect.width ∧
      (drawnCutout rect).height = rect.height ∧
      (drawnCutout rect).radius ≤ rect.radius ∧
      (drawnCutout rect).radius ≤ rect.width / 2 ∧
      (drawnCutout rect).radius ≤ rect.height / 2 := by
  unfold drawnCutout
  refine ⟨rfl, rfl, rfl, rfl, ?_, ?_, ?_⟩
  · exact le_trans (min_le_left _ _) (min_le_left _ _)
  · exact le_trans (min_le_left _ _) (min_le_right _ _)
  · exact min_le_right _ _

/-! ## Claim C6: arrow placement -/

/-- C6 counterexample: with a 100 pixel panel, a target midpoint 10 pixels
from the panel origin and an 8 pixel minimum margin, the offset formula the
specification asserts yields 8, while the CSS places the arrow at 44; the
source computes no target-tracking arrow offset. -/
theorem c6_counterexample :
    arrowCrossOffset 100 ≠ claimedArrowOffset 10 0 100 8 := by
  norm_num [arrowCrossOffset, claimedArrowOffset, arrowSize]

/-- C6 amended: the arrow sits at the fixed CSS position, the panel
cross-axis midpoint minus half the 12 pixel arrow, independent of the
target midpoint and of any clamping; whenever the panel extent is at least
the arrow size this keeps the whole arrow inside the panel edge. -/
theorem c6_arrow_centered (pe : ℚ) (hpe : 12 ≤ pe) :
    arrowCrossOffset pe = pe / 2 - arrowSize / 2 ∧
      0 ≤ arrowCrossOffset pe ∧ arrowCrossOffset pe + arrowSize ≤ pe := by
  refine ⟨by norm_num [arrowCrossOffset, arrowSize], ?_, ?_⟩ <;>
    simp only [arrowCrossOffset, arrowSize] <;> linarith

/-- C6 witness: the amended statement at a 100 pixel panel extent. -/
theorem c6_arrow_centered_witness :
    (12 : ℚ) ≤ 100 ∧
      (arrowCrossOffset 100 = 100 / 2 - arrowSize / 2 ∧
        0 ≤ arrowCrossOffset 100 ∧ arrowCrossOffset 100 + arrowSize ≤ 100) :=
  ⟨by norm_num, c6_arrow_centered 100 (by norm_num)⟩

/-! ## Claim C7: animation-frame deferral -/

/-- C7 counterexample: the highlight manager defers the cutout
recomputation by a single animation frame, not by the two consecutive
frame boundaries the specification asserts. -/
theorem c7_counterexample : highlightRefreshSchedule.frameCount ≠ 2 := by
  decide

/-- C7 amended: after a highlight is issued, the cutout rect recomputation
and scrim update are deferred by exactly one animation-frame boundary. -/
theorem c7_single_frame : highlightRefreshSchedule.frameCount = 1 := rfl

/-! ## Claim C9: hook failure semantics -/

/-- C9: a throwing hook is caught and treated as returning undefined; the
exact value false is the only return classified as a cancellation; a
throwing onDestroyStarted hook never cancels the teardown, and a throwing
onCloseClick hook closes exactly as an absent hook does. -/
theorem c9_safe_hook :
    safeHook (some HookBehavior.throws) = HookRet.retUndefined ∧
      (∀ hb : Option HookBehavior,
        safeHook hb = HookRet.retFalse ↔
          hb = some (HookBehavior.ret HookRet.retFalse)) ∧
      (∀ (cfg : Config) (s : DriverState),
        cfg.onDestroyStarted = some HookBehavior.throws →
          performDestroy cfg true s = performDestroy cfg false s) ∧
      (∀ (cfg : Config) (s : DriverState),
        handleClose { cfg with onCloseClick := some HookBehavior.throws } s =
          handleClose { cfg with onCloseClick := none } s) := by
  refine ⟨rfl, ?_, ?_, ?_⟩
  · intro hb
    match hb with
    | none => simp [safeHook]
    | some (.ret r) => cases r <;> simp [safeHook]
    | some .throws => simp [safeHook]
  · intro cfg s h
    simp [performDestroy, h, safeHook]
  · intro cfg s
    by_cases hf : s.tour.transitionInProgress = true
    · simp [handleClose, hf]
    · have hsteps : ∀ hook, stepAt { cfg with onCloseClick := hook } s.tour.activeStep =
          stepAt cfg s.tour.activeStep := by
        intro hook; rfl
      cases hst : stepAt cfg s.tour.activeStep with
      | none =>
        simp [handleClose, hf, hsteps, hst, effectiveCloseHook, safeHook,
          performDestroy]
      | some st =>
        cases hp : st.popover with
        | none =>
          simp [handleClose, hf, hsteps, hst, hp, effectiveCloseHook, safeHook,
            performDestroy]
        | some p =>
          cases hc : p.onCloseClick with
          | none =>
            simp [handleClose, hf, hsteps, hst, hp, hc, effectiveCloseHook,
              safeHook, performDestroy]
          | some hb =>
            simp [handleClose, hf, hsteps, hst, hp, hc, effectiveCloseHook,
              safeHook, performDestroy]

/-- Configuration whose onDestroyStarted hook throws, for the C9 witness. -/
def cfgThrowDestroy : Config := { onDestroyStarted := some HookBehavior.throws }

/-- C9 witness: a throwing onDestroyStarted hook does not cancel the
teardown. -/
theorem c9_safe_hook_witness :
    performDestroy cfgThrowDestroy true initialDriver =
      performDestroy cfgThrowDestroy false initialDriver :=
  c9_safe_hook.2.2.1 cfgThrowDestroy initialDriver rfl

/-! ## Claim C8: cancellable user-initiated destroy -/

/-- C8: when the onDestroyStarted hook returns exactly false, the
user-initiated destroy is cancelled with no state change at all, so
isActive and the active index are untouched; a subsequent destroy call,
which never consults the hook, removes overlay and popover nodes, detaches
the listeners and resets the tour state to its initial empty value. -/
theorem c8_destroy_cancel (cfg : Config) (s : DriverState)
    (h : safeHook cfg.onDestroyStarted = HookRet.retFalse) :
    performDestroy cfg true s = s ∧
      isActive (performDestroy cfg true s) = isActive s ∧
      getActiveIndex (performDestroy cfg true s) = getActiveIndex s ∧
      isActive (destroy cfg s) = false ∧
      (destroy cfg s).overlayEl = false ∧
      (destroy cfg s).popoverEl = false ∧
      (destroy cfg s).listenersBound = false ∧
      (destroy cfg s).tour = {} := by
  have hd : ∃ hb, cfg.onDestroyStarted = some hb ∧
      safeHook (some hb) = HookRet.retFalse := by
    cases hh : cfg.onDestroyStarted with
    | none => rw [hh] at h; simp [safeHook] at h
    | some hb => exact ⟨hb, rfl, by rw [hh] at h; exact h⟩
  obtain ⟨hb, hhb, hsf⟩ := hd
  have h1 : performDestroy cfg true s = s := by
    simp [performDestroy, hhb, hsf]
  refine ⟨h1, by rw [h1], by rw [h1], ?_, ?_, ?_, ?_, ?_⟩ <;>
    simp [destroy, performDestroy, destroySequence, isActive]

/-- Configuration whose onDestroyStarted hook returns false, for the C8
witness. -/
def cfgCancelDestroy : Config :=
  { steps := [{ popover := some {} }],
    onDestroyStarted := some (HookBehavior.ret HookRet.retFalse) }

/-- Driver state of an initialized tour sitting on step zero, for
witnesses. -/
def activeState : DriverState :=
  { tour := { isInitialized := true, activeIndex := some 0, activeStep := some 0,
              activeElement := true, focusedBeforeActivation := true },
    overlayEl := true, listenersBound := true }

/-- C8 witness: the cancelling hook leaves an active step-zero driver state
entirely unchanged. -/
theorem c8_destroy_cancel_witness :
    safeHook cfgCancelDestroy.onDestroyStarted = HookRet.retFalse ∧
      performDestroy cfgCancelDestroy true activeState = activeState :=
  ⟨rfl, (c8_destroy_cancel cfgCancelDestroy activeState rfl).1⟩

/-! ## Claim C10: index validation errors -/

/-- C10: highlightStep, drive and moveTo fail with the no-steps error on an
empty step list, fail with the invalid-step-index error on an out-of-range
index, and raise no such error on a valid index; drive and moveTo return
the error of the underlying highlightStep call to their caller. -/
theorem c10_index_errors (cfg : Config) (i : Int) (s : DriverState) :
    (cfg.steps.length = 0 →
      highlightStep cfg i s = .error TGError.NO_STEPS ∧
        drive cfg i s = .error TGError.NO_STEPS ∧
        moveTo cfg i s = .error TGError.NO_STEPS) ∧
      (cfg.steps.length ≠ 0 → (i < 0 ∨ (cfg.steps.length : Int) ≤ i) →
        highlightStep cfg i s = .error TGError.INVALID_STEP_INDEX ∧
          drive cfg i s = .error TGError.INVALID_STEP_INDEX ∧
          moveTo cfg i s = .error TGError.INVALID_STEP_INDEX) ∧
      (cfg.steps.length ≠ 0 → 0 ≤ i → i < (cfg.steps.length : Int) →
        (∃ s1, highlightStep cfg i s = .ok s1) ∧
          (∃ s2, drive cfg i s = .ok s2) ∧
          (∃ s3, moveTo cfg i s = .ok s3)) := by
  have herr0 : cfg.steps.length = 0 →
      ∀ s0 : DriverState, highlightStep cfg i s0 = .error TGError.NO_STEPS := by
    intro h s0; simp [highlightStep, h]
  have herr1 : cfg.steps.length ≠ 0 → (i < 0 ∨ (cfg.steps.length : Int) ≤ i) →
      ∀ s0 : DriverState, highlightStep cfg i s0 = .error TGError.INVALID_STEP_INDEX := by
    intro h0 hi s0; simp [highlightStep, h0, hi]
  have hok : cfg.steps.length ≠ 0 → 0 ≤ i → i < (cfg.steps.length : Int) →
      ∀ s0 : DriverState, ∃ s1, highlightStep cfg i s0 = .ok s1 := by
    intro h0 hlo hhi s0
    have h2 : ¬ (i < 0 ∨ (cfg.steps.length : Int) ≤ i) := by
      push_neg; exact ⟨hlo, hhi⟩
    unfold highlightStep
    rw [if_neg h0, if_neg h2]
    by_cases hf : s0.tour.transitionInProgress = true
    · rw [if_pos hf]; exact ⟨s0, rfl⟩
    · rw [if_neg hf]; exact ⟨_, rfl⟩
  refine ⟨?_, ?_, ?_⟩
  · intro h
    exact ⟨herr0 h s, herr0 h _, herr0 h _⟩
  · intro h0 hi
    exact ⟨herr1 h0 hi s, herr1 h0 hi _, herr1 h0 hi _⟩
  · intro h0 hlo hhi
    exact ⟨hok h0 hlo hhi s, hok h0 hlo hhi _, hok h0 hlo hhi _⟩

/-- Configuration holding a single popover-only step, shared by several
witnesses. -/
def cfgOneStep : Config := { steps := [{ popover := some {} }] }

/-! ## Claim C2: reentrancy guard -/

lemma handleNext_guard (cfg : Config) (s : DriverState)
    (h : s.tour.transitionInProgress = true) : handleNext cfg s = .ok s := by
  simp [handleNext, h]

lemma handlePrev_guard (cfg : Config) (s : DriverState)
    (h : s.tour.transitionInProgress = true) : handlePrev cfg s = .ok s := by
  simp [handlePrev, h]

lemma destroySequence_idem (s : DriverState) :
    destroySequence (destroySequence s) = destroySequence s := by
  simp [destroySequence]

lemma performDestroy_false (cfg : Config) (s : DriverState) :
    performDestroy cfg false s = destroySequence s := rfl

/-- Any ok outcome of highlightStep is either the unchanged guarded state
or a state whose transition flag is set. -/
lemma highlightStep_ok_shape (cfg : Config) (i : Int) (s s2 : DriverState)
    (h : highlightStep cfg i s = .ok s2) :
    s2 = s ∨ s2.tour.transitionInProgress = true := by
  unfold highlightStep at h
  split at h
  · cases h
  · split at h
    · cases h
    · split at h
      · exact Or.inl (Except.ok.inj h).symm
      · refine Or.inr ?_
        rw [← Except.ok.inj h]

/-- Any ok outcome of handleNext is the unchanged state, a state in
transition, or the reset state of the end-of-tour teardown. -/
lemma handleNext_ok_shape (cfg : Config) (s s2 : DriverState)
    (h : handleNext cfg s = .ok s2) :
    s2 = s ∨ s2.tour.transitionInProgress = true ∨ s2 = destroySequence s := by
  unfold handleNext at h
  split at h
  · exact Or.inl (Except.ok.inj h).symm
  · have hadv : ∀ (h2 : handleNextAdvance cfg s = .ok s2),
        s2 = s ∨ s2.tour.transitionInProgress = true ∨ s2 = destroySequence s := by
      intro h2
      unfold handleNextAdvance at h2
      split at h2
      · split at h2
        · rcases highlightStep_ok_shape cfg _ s s2 h2 with h3 | h3
          · exact Or.inl h3
          · exact Or.inr (Or.inl h3)
        · rw [performDestroy_false] at h2
          exact Or.inr (Or.inr (Except.ok.inj h2).symm)
      · rw [performDestroy_false] at h2
        exact Or.inr (Or.inr (Except.ok.inj h2).symm)
    split at h
    · split at h
      · exact Or.inl (Except.ok.inj h).symm
      · exact hadv h
    · exact hadv h

/-- handleNext is absorbing on the reset state produced by the teardown. -/
lemma handleNext_on_reset (cfg : Config) (s : DriverState) :
    handleNext cfg (destroySequence s) = .ok (destroySequence s) := by
  have hadv : handleNextAdvance cfg (destroySequence s) = .ok (destroySequence s) := by
    simp [handleNextAdvance, destroySequence, performDestroy]
  unfold handleNext
  rw [if_neg (by simp [destroySequence])]
  have hs : stepAt cfg (destroySequence s).tour.activeStep = none := rfl
  rw [hs]
  unfold effectiveNextHook
  split
  · split
    · exact rfl
    · exact hadv
  · exact hadv

/-- A second handleNext call issued on the outcome of a first one leaves
the state unchanged. -/
lemma handleNext_absorb (cfg : Config) (s1 s2 : DriverState)
    (h : handleNext cfg s1 = .ok s2) : handleNext cfg s2 = .ok s2 := by
  rcases handleNext_ok_shape cfg s1 s2 h with h3 | h3 | h3
  · rw [h3] at h ⊢; exact h
  · exact handleNext_guard cfg s2 h3
  · rw [h3] at h ⊢; exact handleNext_on_reset cfg s1

/-- C2: while a transition is in progress, moveNext and movePrevious are
exact no-ops, any successful moveTo leaves the active index unchanged, a
second moveNext fired on the result of a first changes nothing further,
and the pending deferred render is what clears the flag. -/
theorem c2_transition_guard (cfg : Config) (s : DriverState)
    (h : s.tour.transitionInProgress = true) :
    moveNext cfg s = .ok s ∧
      movePrevious cfg s = .ok s ∧
      (∀ (i : Int) (s2 : DriverState), moveTo cfg i s = .ok s2 →
        s2.tour.activeIndex = s.tour.activeIndex) ∧
      (∀ s1 s2 : DriverState, moveNext cfg s1 = .ok s2 →
        moveNext cfg s2 = .ok s2) ∧
      (s.pendingSettle = true → s.tour.isInitialized = true →
        (settle cfg s).tour.transitionInProgress = false) := by
  have highlightStep_flag : ∀ (i : Int) (s0 : DriverState),
      s0.tour.transitionInProgress = true →
        highlightStep cfg i s0 = .error TGError.NO_STEPS ∨
          highlightStep cfg i s0 = .error TGError.INVALID_STEP_INDEX ∨
          highlightStep cfg i s0 = .ok s0 := by
    intro i s0 h0
    unfold highlightStep
    by_cases hA : cfg.steps.length = 0
    · rw [if_pos hA]
      exact Or.inl rfl
    · rw [if_neg hA]
      by_cases hB : i < 0 ∨ (cfg.steps.length : Int) ≤ i
      · rw [if_pos hB]
        exact Or.inr (Or.inl rfl)
      · rw [if_neg hB, if_pos h0]
        exact Or.inr (Or.inr rfl)
  refine ⟨handleNext_guard cfg s h, handlePrev_guard cfg s h, ?_, ?_, ?_⟩
  · intro i s2 hm
    unfold moveTo at hm
    by_cases hi : s.tour.isInitialized = true
    · rw [if_pos hi] at hm
      rcases highlightStep_flag i s h with he | he | he <;> rw [he] at hm
      · cases hm
      · cases hm
      · rw [← Except.ok.inj hm]
    · rw [if_neg hi] at hm
      have hif : (init s).tour.transitionInProgress = true := by
        simp [init, hi, h]
      have hidx : (init s).tour.activeIndex = s.tour.activeIndex := by
        simp [init, hi]
      rcases highlightStep_flag i (init s) hif with he | he | he <;> rw [he] at hm
      · cases hm
      · cases hm
      · rw [← Except.ok.inj hm]
        exact hidx
  · exact fun s1 s2 h2 => handleNext_absorb cfg s1 s2 h2
  · intro hp hi
    simp [settle, hp, hi]

/-- Driver state caught in the middle of a transition whose deferred render
has not fired yet, for the C2 witness. -/
def transitioningState : DriverState :=
  { tour := { isInitialized := true, activeIndex := some 0, activeStep := some 0,
              activeElement := true, transitionInProgress := true,
              focusedBeforeActivation := true },
    overlayEl := true, listenersBound := true, pendingSettle := true }

/-- C2 witness: on a mid-transition state, moveNext is an exact no-op. -/
theorem c2_transition_guard_witness :
    transitioningState.tour.transitionInProgress = true ∧
      moveNext cfgOneStep transitioningState = .ok transitioningState :=
  ⟨rfl, (c2_transition_guard cfgOneStep transitioningState rfl).1⟩

/-! ## Claim C5: best-side selection -/

/-- C5: with no side specified, the positioner returns the first side in
the priority order bottom, top, right, left whose available space covers
the panel cross-axis extent plus the 20 pixel buffer, and when no side
qualifies it returns the side with the strictly largest available space. -/
theorem c5_best_side (vw vh : ℚ) (t : TargetRect) (p : PanelRect) :
    (sideQualifies vw vh t p .bottom → calculateBestSide vw vh t p = .bottom) ∧
      (¬ sideQualifies vw vh t p .bottom → sideQualifies vw vh t p .top →
        calculateBestSide vw vh t p = .top) ∧
      (¬ sideQualifies vw vh t p .bottom → ¬ sideQualifies vw vh t p .top →
        sideQualifies vw vh t p .right → calculateBestSide vw vh t p = .right) ∧
      (¬ sideQualifies vw vh t p .bottom → ¬ sideQualifies vw vh t p .top →
        ¬ sideQualifies vw vh t p .right → sideQualifies vw vh t p .left →
        calculateBestSide vw vh t p = .left) ∧
      ((∀ side, ¬ sideQualifies vw vh t p side) → ∀ side,
        (∀ other, other ≠ side →
          sideSpace vw vh t other < sideSpace vw vh t side) →
        calculateBestSide vw vh t p = side) := by
  simp only [sideQualifies, sideSpace, sideNeeded, calculateBestSide]
  refine ⟨?_, ?_, ?_, ?_, ?_⟩
  · intro hq
    rw [if_pos hq]
  · intro hnb hq
    rw [if_neg hnb, if_pos hq]
  · intro hnb hnt hq
    rw [if_neg hnb, if_neg hnt, if_pos hq]
  · intro hnb hnt hnr hq
    rw [if_neg hnb, if_neg hnt, if_neg hnr, if_pos hq]
  · intro hnone side hmax
    have hnb := hnone Side.bottom
    have hnt := hnone Side.top
    have hnr := hnone Side.right
    have hnl := hnone Side.left
    simp only [sideQualifies, sideSpace, sideNeeded] at hnb hnt hnr hnl
    rw [if_neg hnb, if_neg hnt, if_neg hnr, if_neg hnl]
    cases side with
    | bottom =>
      have h1 := hmax Side.top (by simp)
      have h2 := hmax Side.right (by simp)
      have h3 := hmax Side.left (by simp)
      simp only [sideSpace] at h1 h2 h3
      have hm : max (max (vh - t.bottom) t.top) (max (vw - t.right) t.left) =
          vh - t.bottom := by
        rw [max_eq_left h1.le, max_eq_left (max_le h2.le h3.le)]
      rw [if_pos hm.symm]
    | top =>
      have h1 := hmax Side.bottom (by simp)
      have h2 := hmax Side.right (by simp)
      have h3 := hmax Side.left (by simp)
      simp only [sideSpace] at h1 h2 h3
      have hm : max (max (vh - t.bottom) t.top) (max (vw - t.right) t.left) =
          t.top := by
        rw [max_eq_right h1.le, max_eq_left (max_le h2.le h3.le)]
      rw [if_neg (by rw [hm]; exact ne_of_lt h1), if_pos hm.symm]
    | right =>
      have h1 := hmax Side.bottom (by simp)
      have h2 := hmax Side.top (by simp)
      have h3 := hmax Side.left (by simp)
      simp only [sideSpace] at h1 h2 h3
      have hm : max (max (vh - t.bottom) t.top) (max (vw - t.right) t.left) =
          vw - t.right := by
        rw [max_eq_left h3.le, max_eq_right (max_le h1.le h2.le)]
      rw [if_neg (by rw [hm]; exact ne_of_lt h1),
        if_neg (by rw [hm]; exact ne_of_lt h2), if_pos hm.symm]
    | left =>
      have h1 := hmax Side.bottom (by simp)
      have h2 := hmax Side.top (by simp)
      have h3 := hmax Side.right (by simp)
      simp only [sideSpace] at h1 h2 h3
      have hm : max (max (vh - t.bottom) t.top) (max (vw - t.right) t.left) =
          t.left := by
        rw [max_eq_right h3.le, max_eq_right (max_le h1.le h2.le)]
      rw [if_neg (by rw [hm]; exact ne_of_lt h1),
        if_neg (by rw [hm]; exact ne_of_lt h2),
        if_neg (by rw [hm]; exact ne_of_lt h3)]

/-- Target rectangle of the C5 witness scenario. -/
def targetW : TargetRect := ⟨10, 95, 60, 90⟩

/-- Panel size of the C5 witness scenario. -/
def panelW : PanelRect := ⟨50, 50⟩

/-- C5 witness: in a 100 by 100 viewport where no side has room for the 50
by 50 panel plus buffer, the left side holds the strictly largest space and
is selected. -/
theorem c5_best_side_witness :
    calculateBestSide 100 100 targetW panelW = Side.left := by
  have hnone : ∀ side, ¬ sideQualifies 100 100 targetW panelW side := by
    intro side
    cases side <;> norm_num [sideQualifies, sideSpace, sideNeeded, targetW, panelW]
  have hmax : ∀ other, other ≠ Side.left →
      sideSpace 100 100 targetW other < sideSpace 100 100 targetW Side.left := by
    intro other hne
    cases other
    · norm_num [sideSpace, targetW]
    · norm_num [sideSpace, targetW]
    · norm_num [sideSpace, targetW]
    · simp at hne
  exact (c5_best_side 100 100 targetW panelW).2.2.2.2 hnone Side.left hmax

/-! ## Claim C3: full walk of the tour -/

/-- Characterizes a driver state resting on step k with the deferred
render already fired. -/
def SettledAt (_cfg : Config) (k : Nat) (s : DriverState) : Prop :=
  s.tour.isInitialized = true ∧ s.tour.activeIndex = some k ∧
    s.tour.activeStep = some k ∧ s.tour.transitionInProgress = false ∧
    s.pendingSettle = false

/-- Successful highlightStep on a valid index outside a transition: the
synchronous part of the call, with the deferred render left pending. -/
lemma highlightStep_advance (cfg : Config) (i : Nat) (hi : i < cfg.steps.length)
    (s : DriverState) (hf : s.tour.transitionInProgress = false) :
    highlightStep cfg (i : Int) s = .ok
      { s with
        popoverVisible := false
        pendingSettle := true
        tour := { s.tour with
          transitionInProgress := true
          previousStep := s.tour.activeStep
          previousElement := s.tour.activeElement
          activeStep := some i
          activeIndex := some i
          activeElement := true } } := by
  have h0 : ¬ cfg.steps.length = 0 := by omega
  have h1 : ¬ ((i : Int) < 0 ∨ (cfg.steps.length : Int) ≤ (i : Int)) := by
    push_neg
    constructor <;> omega
  unfold highlightStep
  rw [if_neg h0, if_neg h1, if_neg (by rw [hf]; simp)]
  rfl

/-- Settling a freshly advanced state yields a settled state on the new
index. -/
lemma settle_advanced (cfg : Config) (j : Nat) (s : DriverState)
    (hinit : s.tour.isInitialized = true) :
    SettledAt cfg j (settle cfg
      { s with
        popoverVisible := false
        pendingSettle := true
        tour := { s.tour with
          transitionInProgress := true
          previousStep := s.tour.activeStep
          previousElement := s.tour.activeElement
          activeStep := some j
          activeIndex := some j
          activeElement := true } }) := by
  unfold settle SettledAt
  simp [hinit]

/-- moveNext from a settled state below the last index advances to the
next step, provided the effective onNextClick hook does not cancel. -/
lemma moveNext_settled_advance (cfg : Config) (k : Nat) (s : DriverState)
    (hS : SettledAt cfg k s)
    (hhook : safeHook (effectiveNextHook cfg (cfg.steps.get? k)) ≠ HookRet.retFalse)
    (hk : k + 1 < cfg.steps.length) :
    moveNext cfg s = .ok
      { s with
        popoverVisible := false
        pendingSettle := true
        tour := { s.tour with
          transitionInProgress := true
          previousStep := s.tour.activeStep
          previousElement := s.tour.activeElement
          activeStep := some (k + 1)
          activeIndex := some (k + 1)
          activeElement := true } } := by
  obtain ⟨hinit, hidx, hstep, hflag, hpend⟩ := hS
  have hadv : handleNextAdvance cfg s = .ok
      { s with
        popoverVisible := false
        pendingSettle := true
        tour := { s.tour with
          transitionInProgress := true
          previousStep := s.tour.activeStep
          previousElement := s.tour.activeElement
          activeStep := some (k + 1)
          activeIndex := some (k + 1)
          activeElement := true } } := by
    unfold handleNextAdvance
    rw [hidx]
    have hlt : (k : Int) < (cfg.steps.length : Int) - 1 := by omega
    show (if (k : Int) < (cfg.steps.length : Int) - 1 then
        highlightStep cfg ((k : Int) + 1) s
      else Except.ok (performDestroy cfg false s)) = _
    rw [if_pos hlt]
    exact highlightStep_advance cfg (k + 1) hk s hflag
  unfold moveNext handleNext
  rw [if_neg (by rw [hflag]; simp)]
  have hsa : stepAt cfg s.tour.activeStep = cfg.steps.get? k := by
    rw [hstep]
    rfl
  cases hh : effectiveNextHook cfg (cfg.steps.get? k) with
  | none =>
    rw [hsa, hh]
    exact hadv
  | some hb =>
    rw [hsa, hh]
    rw [hh] at hhook
    show (if safeHook (some hb) = HookRet.retFalse then Except.ok s
      else handleNextAdvance cfg s) = _
    rw [if_neg hhook]
    exact hadv

/-- Induction core of C3: after drive and k settled moveNext calls the
driver rests settled on step k, for every k within the step list. -/
lemma tourRun_settled (cfg : Config)
    (hhook : ∀ i, i < cfg.steps.length →
      safeHook (effectiveNextHook cfg (cfg.steps.get? i)) ≠ HookRet.retFalse) :
    ∀ k, k < cfg.steps.length →
      ∃ s, tourRun cfg k = .ok s ∧ SettledAt cfg k s := by
  intro k
  induction k with
  | zero =>
    intro hk
    have hadv := highlightStep_advance cfg 0 hk (init initialDriver) rfl
    refine ⟨_, ?_, settle_advanced cfg 0 (init initialDriver) rfl⟩
    show (highlightStep cfg ((0 : Nat) : Int) (init initialDriver)).map (settle cfg) = _
    rw [hadv]
    rfl
  | succ k ih =>
    intro hk
    obtain ⟨s, hrun, hS⟩ := ih (by omega)
    have hinit := hS.1
    have hmv := moveNext_settled_advance cfg k s hS (hhook k (by omega)) hk
    refine ⟨_, ?_, settle_advanced cfg (k + 1) s hinit⟩
    show (tourRun cfg k).bind (fun s0 => (moveNext cfg s0).map (settle cfg)) = _
    rw [hrun]
    show (moveNext cfg s).map (settle cfg) = _
    rw [hmv]
    rfl

/-- C3: on a nonempty step list with no cancelling onNextClick hooks,
drive at index zero followed by settled moveNext calls up to the last
index reaches a state where isLastStep holds, and one further moveNext
tears the tour down, leaving isActive false. -/
theorem c3_full_tour (cfg : Config) (hn : 1 ≤ cfg.steps.length)
    (hhook : ∀ i, i < cfg.steps.length →
      safeHook (effectiveNextHook cfg (cfg.steps.get? i)) ≠ HookRet.retFalse) :
    ∃ s, tourRun cfg (cfg.steps.length - 1) = .ok s ∧
      isLastStep cfg s = true ∧
      ∃ s2, moveNext cfg s = .ok s2 ∧ isActive s2 = false := by
  obtain ⟨s, hrun, hS⟩ := tourRun_settled cfg hhook (cfg.steps.length - 1) (by omega)
  obtain ⟨hinit, hidx, hstep, hflag, hpend⟩ := hS
  refine ⟨s, hrun, ?_, ?_⟩
  · unfold isLastStep
    rw [hidx]
    have hcast : ((cfg.steps.length - 1 : Nat) : Int) = (cfg.steps.length : Int) - 1 := by
      omega
    simp [hcast]
  · have hadv : handleNextAdvance cfg s = .ok (performDestroy cfg false s) := by
      unfold handleNextAdvance
      rw [hidx]
      have hge : ¬ ((cfg.steps.length - 1 : Nat) : Int) <
          (cfg.steps.length : Int) - 1 := by omega
      show (if ((cfg.steps.length - 1 : Nat) : Int) < (cfg.steps.length : Int) - 1 then
          highlightStep cfg (((cfg.steps.length - 1 : Nat) : Int) + 1) s
        else Except.ok (performDestroy cfg false s)) = _
      rw [if_neg hge]
    refine ⟨performDestroy cfg false s, ?_, ?_⟩
    · unfold moveNext handleNext
      rw [if_neg (by rw [hflag]; simp)]
      have hsa : stepAt cfg s.tour.activeStep =
          cfg.steps.get? (cfg.steps.length - 1) := by
        rw [hstep]
        rfl
      cases hh : effectiveNextHook cfg (cfg.steps.get? (cfg.steps.length - 1)) with
      | none =>
        rw [hsa, hh]
        exact hadv
      | some hb =>
        rw [hsa, hh]
        have hnc := hhook (cfg.steps.length - 1) (by omega)
        rw [hh] at hnc
        show (if safeHook (some hb) = HookRet.retFalse then Except.ok s
          else handleNextAdvance cfg s) = _
        rw [if_neg hnc]
        exact hadv
    · rw [performDestroy_false]
      rfl

/-- C3 witness: the one-step configuration walks to its last step and a
further moveNext deactivates the tour. -/
theorem c3_full_tour_witness :
    1 ≤ cfgOneStep.steps.length ∧
      (∀ i, i < cfgOneStep.steps.length →
        safeHook (effectiveNextHook cfgOneStep (cfgOneStep.steps.get? i)) ≠
          HookRet.retFalse) ∧
      ∃ s, tourRun cfgOneStep (cfgOneStep.steps.length - 1) = .ok s ∧
        isLastStep cfgOneStep s = true ∧
        ∃ s2, moveNext cfgOneStep s = .ok s2 ∧ isActive s2 = false := by
  have hhook : ∀ i, i < cfgOneStep.steps.length →
      safeHook (effectiveNextHook cfgOneStep (cfgOneStep.steps.get? i)) ≠
        HookRet.retFalse := by
    intro i hi
    have hi1 : i < 1 := by simpa [cfgOneStep] using hi
    have h0 : i = 0 := by omega
    subst h0
    decide
  exact ⟨by decide, hhook, c3_full_tour cfgOneStep (by decide) hhook⟩

/-- C10 witness: on the one-step configuration, index zero raises no error
through highlightStep, drive or moveTo. -/
theorem c10_index_errors_witness :
    cfgOneStep.steps.length ≠ 0 ∧ (0 : Int) ≤ 0 ∧
      (0 : Int) < (cfgOneStep.steps.length : Int) ∧
      ((∃ s1, highlightStep cfgOneStep 0 initialDriver = .ok s1) ∧
        (∃ s2, drive cfgOneStep 0 initialDriver = .ok s2) ∧
        (∃ s3, moveTo cfgOneStep 0 initialDriver = .ok s3)) :=
  ⟨by decide, by decide, by decide,
    (c10_index_errors cfgOneStep 0 initialDriver).2.2 (by decide) (by decide)
      (by decide)⟩

end TamperGuide
